import Mathlib

/-!
# netScope: the network report generator (`netreport.go`)

A shallow embedding of `netreport.go`.  Go strings are modelled as Lean
`String`s (sequences of Unicode code points, so byte strings that are not
valid UTF-8 are left out), a Go `error` value as
`Option String` (`none` is `nil`, `some msg` is an error whose `Error()`
text is `msg`), and the process runner `run` as a function from the command
and its argument list to the captured output and the error.  Every function
that calls the runner also returns the list of calls it made, in order.

The three goroutines of `main` touch the shared record `results` only in the
single assignment each of them ends with, so an execution of the concurrent
part is modelled by the order in which the goroutines complete.
-/

set_option autoImplicit false

namespace NetScope

/-! ## Go string primitives used by the program -/

/-- Go `unicode.IsSpace`: the Latin-1 white space characters and the code
points with the Unicode White_Space property. -/
def isSpace (c : Char) : Bool :=
  let n := c.toNat
  n == 0x09 || n == 0x0A || n == 0x0B || n == 0x0C || n == 0x0D || n == 0x20 ||
  n == 0x85 || n == 0xA0 || n == 0x1680 || (0x2000 ≤ n && n ≤ 0x200A) ||
  n == 0x2028 || n == 0x2029 || n == 0x202F || n == 0x205F || n == 0x3000

/-- Go `strings.TrimSpace` on the characters of a string: all leading and
trailing white space removed. -/
def trimSpaceChars (cs : List Char) : List Char :=
  ((cs.dropWhile isSpace).reverse.dropWhile isSpace).reverse

/-- Go `strings.TrimSpace`. -/
def TrimSpace (s : String) : String := ⟨trimSpaceChars s.data⟩

/-- Go `strings.HasPrefix`. -/
def HasPrefix (s pre : String) : Bool := pre.data.isPrefixOf s.data

/-- Go `strings.Split(s, "\n")` on the characters of a string; `cur` holds the
characters of the current piece, latest first.  The result always has one
piece more than there are newlines. -/
def splitNewlineAux : List Char → List Char → List String
  | [], cur => [⟨cur.reverse⟩]
  | c :: cs, cur =>
    if c = '\n' then ⟨cur.reverse⟩ :: splitNewlineAux cs []
    else splitNewlineAux cs (c :: cur)

/-- Go `strings.Split(s, "\n")`. -/
def SplitNewline (s : String) : List String := splitNewlineAux s.data []

/-- Go `strings.Fields` on the characters of a string; `cur` holds the
characters of the field being read, latest first. -/
def fieldsAux : List Char → List Char → List String
  | [], cur => if cur = [] then [] else [⟨cur.reverse⟩]
  | c :: cs, cur =>
    if isSpace c then
      (if cur = [] then fieldsAux cs [] else ⟨cur.reverse⟩ :: fieldsAux cs [])
    else fieldsAux cs (c :: cur)

/-- Go `strings.Fields`: the maximal runs of non-space characters. -/
def Fields (s : String) : List String := fieldsAux s.data []

/-! ## The process runner -/

/-- One invocation of `run`: the command and its arguments. -/
structure Call where
  cmd : String
  args : List String
deriving DecidableEq, Repr

/-- The behaviour of `run`: the combined output and the error (`none` = nil). -/
abbrev Runner := String → List String → String × Option String

/-! ## Context resolver -/

/-- The shell pipeline of the route-listing step of `getCIDR`. -/
def routeScript : String := "ip route | awk '/default/ \x7bprint $5\x7d'"

/-- The shell pipeline of the address-listing step of `getCIDR`:
`fmt.Sprintf("ip -o -f inet addr show dev %s | awk '{print $4}'", iface)`. -/
def addrScript (iface : String) : String :=
  "ip -o -f inet addr show dev " ++ iface ++ " | awk '\x7bprint $4\x7d'"

/-- The shell pipeline of `getWifiInterface`. -/
def wifiScript : String := "iw dev | awk '$1==\"Interface\"\x7bprint $2\x7d'"

/-- What `getCIDR` returns: `(cidr, iface, err)`, and the runner calls made. -/
structure CIDRResult where
  cidr : String
  iface : String
  err : Option String
  trace : List Call
deriving DecidableEq, Repr

/-- The function `getCIDR`. -/
def getCIDR (r : Runner) : CIDRResult :=
  let c1 : Call := ⟨"sh", ["-c", routeScript]⟩
  match r c1.cmd c1.args with
  | (out, some err) =>
    ⟨"", "", some ("get default interface: " ++ err ++ ": " ++ out), [c1]⟩
  | (out, none) =>
    let iface := TrimSpace out
    if iface = "" then
      ⟨"", "", some "default interface not found", [c1]⟩
    else
      let c2 : Call := ⟨"sh", ["-c", addrScript iface]⟩
      match r c2.cmd c2.args with
      | (out2, some err) =>
        ⟨"", iface, some ("get CIDR: " ++ err ++ ": " ++ out2), [c1, c2]⟩
      | (out2, none) => ⟨TrimSpace out2, iface, none, [c1, c2]⟩

/-- What `getWifiInterface` returns: `(name, err)`, and the runner calls made. -/
structure WifiResult where
  name : String
  err : Option String
  trace : List Call
deriving DecidableEq, Repr

/-- The function `getWifiInterface`. -/
def getWifiInterface (r : Runner) : WifiResult :=
  let c1 : Call := ⟨"sh", ["-c", wifiScript]⟩
  match r c1.cmd c1.args with
  | (out, some err) =>
    ⟨"", some ("list wifi interfaces: " ++ err ++ ": " ++ out), [c1]⟩
  | (out, none) =>
    match Fields out with
    | [] => ⟨"", some "no wifi interface found", [c1]⟩
    | first :: _ => ⟨first, none, [c1]⟩

/-! ## Probes -/

/-- What a probe goroutine produces: the text it stores in its field of
`results`, and the runner calls it made. -/
structure ProbeResult where
  text : String
  trace : List Call
deriving DecidableEq, Repr

/-- The device-discovery goroutine of `main` (writes `results.nmap`). -/
def nmapProbe (r : Runner) (cidr : String) : ProbeResult :=
  if cidr = "" then ⟨"CIDR not found", []⟩
  else
    let c : Call := ⟨"nmap", ["-sn", cidr]⟩
    match r c.cmd c.args with
    | (out, some err) => ⟨"nmap error: " ++ err ++ "\n" ++ out, [c]⟩
    | (out, none) => ⟨out, [c]⟩

/-- The loop of the wireless-link goroutine over the lines of the output: the
trimmed form of the first line whose trimmed form starts with `freq:`, or the
initial value `""` of `freq` when the loop ends without a `break`. -/
def scanFreq : List String → String
  | [] => ""
  | line :: rest =>
    if HasPrefix (TrimSpace line) "freq:" then TrimSpace line else scanFreq rest

/-- The tail of the wireless-link goroutine on a successful run: what is stored
in `results.freq` for the output `out`. -/
def parseFreq (out : String) : String :=
  let freq := scanFreq (SplitNewline out)
  if freq = "" then out else freq

/-- The wireless-link goroutine of `main` (writes `results.freq`). -/
def wifiProbe (r : Runner) (wifiIf : String) : ProbeResult :=
  if wifiIf = "" then ⟨"wifi interface not found", []⟩
  else
    let c : Call := ⟨"iw", ["dev", wifiIf, "link"]⟩
    match r c.cmd c.args with
    | (out, some err) => ⟨"iw error: " ++ err ++ "\n" ++ out, [c]⟩
    | (out, none) => ⟨parseFreq out, [c]⟩

/-- The bandwidth goroutine of `main` (writes `results.speed`). -/
def speedProbe (r : Runner) : ProbeResult :=
  let c : Call := ⟨"speedtest", ["--server-id", "3696", "--simple"]⟩
  match r c.cmd c.args with
  | (out, some err) => ⟨"speedtest error: " ++ err ++ "\n" ++ out, [c]⟩
  | (out, none) => ⟨out, [c]⟩

/-! ## Orchestration and report -/

/-- The shared record `results` of `main`. -/
structure Results where
  nmap : String
  freq : String
  speed : String
deriving DecidableEq, Repr

/-- The three goroutines launched by `main`. -/
inductive Task where
  | nmap
  | freq
  | speed
deriving DecidableEq, Repr

/-- The effect of one goroutine running to completion on the shared record:
its single assignment to a field of `results`. -/
def Task.exec (r : Runner) (cidr wifiIf : String) : Task → Results → Results
  | .nmap, res => { res with nmap := (nmapProbe r cidr).text }
  | .freq, res => { res with freq := (wifiProbe r wifiIf).text }
  | .speed, res => { res with speed := (speedProbe r).text }

/-- The record read after `wg.Wait()` when the goroutines complete in the order
`order`, starting from the zero value of `results`. -/
def joinAll (r : Runner) (cidr wifiIf : String) (order : List Task) : Results :=
  order.foldl (fun res t => t.exec r cidr wifiIf res) ⟨"", "", ""⟩

/-- The report printed by `main` after the join; `ts` is the formatted start
time `start.Format("02/01/2006 15:04:05")`. -/
def report (ts iface cidr wifiIf : String) (res : Results) : String :=
  ("Relatório de Rede - " ++ ts ++ "\n\n") ++
  ("Interface padrão: " ++ iface ++ "\n") ++
  ("CIDR: " ++ cidr ++ "\n\n") ++
  ("Dispositivos conectados (nmap -sn):" ++ "\n") ++
  (res.nmap ++ "\n") ++
  ("Interface WiFi: " ++ wifiIf ++ "\n") ++
  ("Frequência de conexão:\n" ++ res.freq ++ "\n\n") ++
  ("Speedtest (São Paulo):" ++ "\n") ++
  (res.speed ++ "\n")

/-- The notices printed by `main` while resolving the context:
`CIDR error: %v\n` and `WiFi interface error: %v\n` for a non-nil error. -/
def notices (c : CIDRResult) (w : WifiResult) : String :=
  (match c.err with
    | some e => "CIDR error: " ++ e ++ "\n"
    | none => "") ++
  (match w.err with
    | some e => "WiFi interface error: " ++ e ++ "\n"
    | none => "")

/-- The standard output of `main` when the goroutines complete in the order
`order`. -/
def main (r : Runner) (ts : String) (order : List Task) : String :=
  let c := getCIDR r
  let w := getWifiInterface r
  notices c w ++ report ts c.iface c.cidr w.name (joinAll r c.cidr w.name order)

/-- The shell command strings among a list of runner calls: the argument that
follows `sh -c`. -/
def shellStrings : List Call → List String
  | [] => []
  | ⟨"sh", ["-c", script]⟩ :: rest => script :: shellStrings rest
  | _ :: rest => shellStrings rest

/-- The shell command strings the context resolver hands to the runner, in
the order of the calls: `getCIDR` first, then `getWifiInterface`. -/
def resolverShellStrings (r : Runner) : List String :=
  shellStrings ((getCIDR r).trace ++ (getWifiInterface r).trace)

/-- The interface names the statement about shell strings speaks of: one
name, not empty, made of ASCII letters, digits, `.`, `_` and `-` only, so
without white space and without a character the shell gives a meaning to. -/
def plainName (s : String) : Bool :=
  s.data != [] && s.data.all (fun c => c.isAlphanum || c == '.' || c == '_' || c == '-')

/-! ## Sample runners -/

/-- A runner on which every tool fails with `exit status 1` after printing
`partial output`. -/
def failingRunner : Runner := fun _ _ => ("partial output", some "exit status 1")

/-- A runner for a host whose default interface is `wlan0`. -/
def sampleRunner : Runner := fun cmd args =>
  if cmd = "sh" then
    if args = ["-c", routeScript] then ("wlan0\n", none)
    else if args = ["-c", wifiScript] then ("wlan0\n", none)
    else ("192.168.1.10/24\n", none)
  else if cmd = "iw" then
    ("Connected to aa:bb:cc:dd:ee:ff (on wlan0)\n\tSSID: home\n   freq: 5180 MHz\n\tsignal: -40 dBm\n", none)
  else if cmd = "nmap" then ("Nmap done: 256 IP addresses (3 hosts up)\n", none)
  else ("Ping: 5 ms\nDownload: 100 Mbit/s\nUpload: 50 Mbit/s\n", none)

/-- A runner for a host with no wireless link: every tool succeeds and prints
`Not connected.`. -/
def notConnectedRunner : Runner := fun _ _ => ("Not connected.\n", none)

/-- A runner for a host whose default interface `eth0` has no IPv4 address:
the address-listing pipeline for `eth0` succeeds and prints nothing, every
other command succeeds and prints `eth0`. -/
def noAddressRunner : Runner := fun cmd args =>
  if cmd = "sh" ∧ args = ["-c", addrScript "eth0"] then ("", none) else ("eth0\n", none)

/-- A runner on which every command succeeds and prints `wlan0`. -/
def echoRunner : Runner := fun _ _ => ("wlan0\n", none)

/-! ## Probe failures become text -/

/-- C1: whenever the runner reports failure with error `e` and captured output
`out`, each of the three probes (device discovery with a non-empty cidr,
wireless link with a non-empty wifi interface name, bandwidth test) still
produces a result text, which is exactly `<tool> error: e\nout` with the tool
name `nmap`, `iw`, `speedtest`; the captured output is a suffix of it. -/
theorem probe_failure_text (r : Runner) (cidr wifiIf : String) :
    (∀ out e, cidr ≠ "" → r "nmap" ["-sn", cidr] = (out, some e) →
      (nmapProbe r cidr).text = "nmap error: " ++ e ++ "\n" ++ out ∧
      out.data <:+ (nmapProbe r cidr).text.data) ∧
    (∀ out e, wifiIf ≠ "" → r "iw" ["dev", wifiIf, "link"] = (out, some e) →
      (wifiProbe r wifiIf).text = "iw error: " ++ e ++ "\n" ++ out ∧
      out.data <:+ (wifiProbe r wifiIf).text.data) ∧
    (∀ out e, r "speedtest" ["--server-id", "3696", "--simple"] = (out, some e) →
      (speedProbe r).text = "speedtest error: " ++ e ++ "\n" ++ out ∧
      out.data <:+ (speedProbe r).text.data) := by
  refine ⟨?_, ?_, ?_⟩
  · intro out e hc hr
    have h : (nmapProbe r cidr).text = "nmap error: " ++ e ++ "\n" ++ out := by
      simp [nmapProbe, hc, hr]
    exact ⟨h, by rw [h, String.data_append]; exact List.suffix_append _ _⟩
  · intro out e hw hr
    have h : (wifiProbe r wifiIf).text = "iw error: " ++ e ++ "\n" ++ out := by
      simp [wifiProbe, hw, hr]
    exact ⟨h, by rw [h, String.data_append]; exact List.suffix_append _ _⟩
  · intro out e hr
    have h : (speedProbe r).text = "speedtest error: " ++ e ++ "\n" ++ out := by
      simp [speedProbe, hr]
    exact ⟨h, by rw [h, String.data_append]; exact List.suffix_append _ _⟩

/-- C1 at a runner on which every tool fails. -/
theorem probe_failure_text_witness :
    (nmapProbe failingRunner "10.0.0.0/8").text =
      "nmap error: exit status 1\npartial output" ∧
    (wifiProbe failingRunner "wlan0").text =
      "iw error: exit status 1\npartial output" ∧
    (speedProbe failingRunner).text =
      "speedtest error: exit status 1\npartial output" :=
  ⟨((probe_failure_text failingRunner "10.0.0.0/8" "wlan0").1
      "partial output" "exit status 1" (by decide) rfl).1,
   ((probe_failure_text failingRunner "10.0.0.0/8" "wlan0").2.1
      "partial output" "exit status 1" (by decide) rfl).1,
   ((probe_failure_text failingRunner "10.0.0.0/8" "wlan0").2.2
      "partial output" "exit status 1" rfl).1⟩

/-! ## Prerequisites of the probes -/

/-- C3: with an empty cidr the device-discovery probe yields exactly
`CIDR not found` and calls the runner zero times; with a non-empty cidr it
calls the runner exactly once, as `nmap -sn cidr`. -/
theorem nmapProbe_calls (r : Runner) (cidr : String) :
    (cidr = "" → (nmapProbe r cidr).text = "CIDR not found" ∧
      (nmapProbe r cidr).trace = []) ∧
    (cidr ≠ "" → (nmapProbe r cidr).trace = [⟨"nmap", ["-sn", cidr]⟩]) := by
  constructor
  · intro h
    simp [nmapProbe, h]
  · intro h
    rcases hr : r "nmap" ["-sn", cidr] with ⟨out, _ | e⟩ <;> simp [nmapProbe, h, hr]

/-- C3 at an empty cidr and at `192.168.1.0/24`. -/
theorem nmapProbe_calls_witness :
    ((nmapProbe sampleRunner "").text = "CIDR not found" ∧
      (nmapProbe sampleRunner "").trace = []) ∧
    (nmapProbe sampleRunner "192.168.1.0/24").trace =
      [⟨"nmap", ["-sn", "192.168.1.0/24"]⟩] :=
  ⟨(nmapProbe_calls sampleRunner "").1 rfl,
   (nmapProbe_calls sampleRunner "192.168.1.0/24").2 (by decide)⟩

/-- C4: with an empty wifi interface name the wireless-link probe yields
exactly `wifi interface not found` and calls the runner zero times; with a
non-empty name it calls the runner exactly once, as `iw dev wifiIf link`. -/
theorem wifiProbe_calls (r : Runner) (wifiIf : String) :
    (wifiIf = "" → (wifiProbe r wifiIf).text = "wifi interface not found" ∧
      (wifiProbe r wifiIf).trace = []) ∧
    (wifiIf ≠ "" →
      (wifiProbe r wifiIf).trace = [⟨"iw", ["dev", wifiIf, "link"]⟩]) := by
  constructor
  · intro h
    simp [wifiProbe, h]
  · intro h
    rcases hr : r "iw" ["dev", wifiIf, "link"] with ⟨out, _ | e⟩ <;>
      simp [wifiProbe, h, hr]

/-- C4 at an empty interface name and at `wlan0`. -/
theorem wifiProbe_calls_witness :
    ((wifiProbe sampleRunner "").text = "wifi interface not found" ∧
      (wifiProbe sampleRunner "").trace = []) ∧
    (wifiProbe sampleRunner "wlan0").trace =
      [⟨"iw", ["dev", "wlan0", "link"]⟩] :=
  ⟨(wifiProbe_calls sampleRunner "").1 rfl,
   (wifiProbe_calls sampleRunner "wlan0").2 (by decide)⟩

/-! ## The report -/

/-- C6: the report text is the fixed template with the timestamp, the context
fields and the three result texts in their slots, whatever they are (empty
strings included). -/
theorem report_eq (ts iface cidr wifiIf nmap freq speed : String) :
    report ts iface cidr wifiIf ⟨nmap, freq, speed⟩ =
      "Relatório de Rede - " ++ ts ++ "\n\nInterface padrão: " ++ iface ++
      "\nCIDR: " ++ cidr ++ "\n\nDispositivos conectados (nmap -sn):\n" ++ nmap ++
      "\nInterface WiFi: " ++ wifiIf ++ "\nFrequência de conexão:\n" ++ freq ++
      "\n\nSpeedtest (São Paulo):\n" ++ speed ++ "\n" := by
  apply String.ext
  simp only [report, String.data_append, List.append_assoc]
  rfl

/-! ## Completion order of the probes -/

/-- The record after the join is the same for every completion order. -/
theorem joinAll_of_perm (r : Runner) (cidr wifiIf : String) (order : List Task)
    (h : order.Perm [Task.nmap, Task.freq, Task.speed]) :
    joinAll r cidr wifiIf order =
      ⟨(nmapProbe r cidr).text, (wifiProbe r wifiIf).text, (speedProbe r).text⟩ := by
  have hlen := h.length_eq
  match order, hlen with
  | [a, b, c], _ =>
    cases a <;> cases b <;> cases c <;>
      first
        | rfl
        | exact absurd h (by decide)

/-- C2: for every runner, every context and any two of the 6 completion orders
of the three probe tasks, the result record read after the join is the same
(each field holds the text of its own probe), hence the report is the same;
each task writes only its own field of the record. -/
theorem join_order_independent (r : Runner) (ts iface cidr wifiIf : String)
    (o₁ o₂ : List Task)
    (h₁ : o₁.Perm [Task.nmap, Task.freq, Task.speed])
    (h₂ : o₂.Perm [Task.nmap, Task.freq, Task.speed]) :
    joinAll r cidr wifiIf o₁ = joinAll r cidr wifiIf o₂ ∧
    joinAll r cidr wifiIf o₁ =
      ⟨(nmapProbe r cidr).text, (wifiProbe r wifiIf).text, (speedProbe r).text⟩ ∧
    report ts iface cidr wifiIf (joinAll r cidr wifiIf o₁) =
      report ts iface cidr wifiIf (joinAll r cidr wifiIf o₂) ∧
    main r ts o₁ = main r ts o₂ ∧
    (∀ res : Results,
      (Task.nmap.exec r cidr wifiIf res).freq = res.freq ∧
      (Task.nmap.exec r cidr wifiIf res).speed = res.speed ∧
      (Task.freq.exec r cidr wifiIf res).nmap = res.nmap ∧
      (Task.freq.exec r cidr wifiIf res).speed = res.speed ∧
      (Task.speed.exec r cidr wifiIf res).nmap = res.nmap ∧
      (Task.speed.exec r cidr wifiIf res).freq = res.freq) := by
  refine ⟨?_, joinAll_of_perm r cidr wifiIf o₁ h₁, ?_, ?_, ?_⟩
  · rw [joinAll_of_perm r cidr wifiIf o₁ h₁, joinAll_of_perm r cidr wifiIf o₂ h₂]
  · rw [joinAll_of_perm r cidr wifiIf o₁ h₁, joinAll_of_perm r cidr wifiIf o₂ h₂]
  · unfold main
    simp only [joinAll_of_perm r _ _ o₁ h₁, joinAll_of_perm r _ _ o₂ h₂]
  · intro res
    exact ⟨rfl, rfl, rfl, rfl, rfl, rfl⟩

/-- C2 at the launch order and the reversed completion order. -/
theorem join_order_independent_witness :
    joinAll sampleRunner "192.168.1.0/24" "wlan0" [Task.nmap, Task.freq, Task.speed] =
      joinAll sampleRunner "192.168.1.0/24" "wlan0" [Task.speed, Task.freq, Task.nmap] ∧
    main sampleRunner "04/11/2026 10:00:00" [Task.nmap, Task.freq, Task.speed] =
      main sampleRunner "04/11/2026 10:00:00" [Task.speed, Task.freq, Task.nmap] :=
  have h := join_order_independent sampleRunner "04/11/2026 10:00:00" "wlan0"
    "192.168.1.0/24" "wlan0" [Task.nmap, Task.freq, Task.speed]
    [Task.speed, Task.freq, Task.nmap] (by decide) (by decide)
  ⟨h.1, h.2.2.2.1⟩

/-! ## Parsing the link frequency -/

/-- A string with a non-empty prefix is not empty. -/
theorem ne_empty_of_hasPrefix (s : String) (h : HasPrefix s "freq:" = true) :
    s ≠ "" := by
  intro hs
  subst hs
  revert h
  decide

/-- The loop returns the trimmed form of the first line that qualifies. -/
theorem scanFreq_first (pre : List String) (line : String) (post : List String)
    (hpre : ∀ x ∈ pre, HasPrefix (TrimSpace x) "freq:" = false)
    (hline : HasPrefix (TrimSpace line) "freq:" = true) :
    scanFreq (pre ++ line :: post) = TrimSpace line := by
  induction pre with
  | nil => simp [scanFreq, hline]
  | cons x xs ih =>
    have hx : HasPrefix (TrimSpace x) "freq:" = false := hpre x (by simp)
    have hxs : ∀ y ∈ xs, HasPrefix (TrimSpace y) "freq:" = false :=
      fun y hy => hpre y (by simp [hy])
    simp [scanFreq, hx, ih hxs]

/-- The loop ends with the initial empty value when no line qualifies. -/
theorem scanFreq_none (ls : List String)
    (h : ∀ x ∈ ls, HasPrefix (TrimSpace x) "freq:" = false) :
    scanFreq ls = "" := by
  induction ls with
  | nil => rfl
  | cons x xs ih =>
    have hx : HasPrefix (TrimSpace x) "freq:" = false := h x (by simp)
    have hxs : ∀ y ∈ xs, HasPrefix (TrimSpace y) "freq:" = false :=
      fun y hy => h y (by simp [hy])
    simp [scanFreq, hx, ih hxs]

/-- C5: when the link-info command succeeds with output `out`, the
wireless-link result text is the trimmed form of the first line of `out`
(split on newlines) whose trimmed form starts with `freq:`, and that trimmed
line is never empty; when no line qualifies the result text is `out` itself,
untrimmed. -/
theorem wifiProbe_freq (r : Runner) (wifiIf out : String) (hw : wifiIf ≠ "")
    (hr : r "iw" ["dev", wifiIf, "link"] = (out, none)) :
    (∀ pre line post, SplitNewline out = pre ++ line :: post →
      (∀ x ∈ pre, HasPrefix (TrimSpace x) "freq:" = false) →
      HasPrefix (TrimSpace line) "freq:" = true →
      (wifiProbe r wifiIf).text = TrimSpace line ∧ TrimSpace line ≠ "") ∧
    ((∀ x ∈ SplitNewline out, HasPrefix (TrimSpace x) "freq:" = false) →
      (wifiProbe r wifiIf).text = out) := by
  have htext : (wifiProbe r wifiIf).text = parseFreq out := by
    simp [wifiProbe, hw, hr]
  constructor
  · intro pre line post hsplit hpre hline
    have hne := ne_empty_of_hasPrefix (TrimSpace line) hline
    refine ⟨?_, hne⟩
    rw [htext]
    unfold parseFreq
    simp only [hsplit, scanFreq_first pre line post hpre hline]
    rw [if_neg hne]
  · intro hnone
    rw [htext]
    unfold parseFreq
    simp only [scanFreq_none _ hnone]
    simp

/-- C5 at an output with the line `   freq: 5180 MHz` among others, and at an
output without such a line. -/
theorem wifiProbe_freq_witness :
    (wifiProbe sampleRunner "wlan0").text = "freq: 5180 MHz" ∧
    (wifiProbe notConnectedRunner "wlan0").text = "Not connected.\n" :=
  ⟨((wifiProbe_freq sampleRunner "wlan0"
      "Connected to aa:bb:cc:dd:ee:ff (on wlan0)\n\tSSID: home\n   freq: 5180 MHz\n\tsignal: -40 dBm\n"
      (by decide) rfl).1
      ["Connected to aa:bb:cc:dd:ee:ff (on wlan0)", "\tSSID: home"]
      "   freq: 5180 MHz" ["\tsignal: -40 dBm", ""]
      (by decide) (by decide) (by decide)).1,
   (wifiProbe_freq notConnectedRunner "wlan0" "Not connected.\n" (by decide) rfl).2
      (by decide)⟩

/-! ## The context resolver -/

/-- C7: the interface name returned by `getCIDR` is the one obtained from the
route-listing step, whatever the address-listing step does: when the first step
succeeds with a non-empty trimmed output `t`, the returned interface name is
`t`, and if the second step fails the cidr is empty and the error non-nil;
when the first step fails, or its trimmed output is empty, interface name and
cidr are empty, the error is non-nil (`default interface not found` for the
empty output) and the only runner call is the route-listing one. -/
theorem getCIDR_iface (r : Runner) (out : String) :
    (r "sh" ["-c", routeScript] = (out, none) → TrimSpace out ≠ "" →
      (getCIDR r).iface = TrimSpace out ∧
      (getCIDR r).trace =
        [⟨"sh", ["-c", routeScript]⟩, ⟨"sh", ["-c", addrScript (TrimSpace out)]⟩] ∧
      (∀ out2 e, r "sh" ["-c", addrScript (TrimSpace out)] = (out2, some e) →
        (getCIDR r).cidr = "" ∧ (getCIDR r).err ≠ none) ∧
      (∀ out2, r "sh" ["-c", addrScript (TrimSpace out)] = (out2, none) →
        (getCIDR r).cidr = TrimSpace out2 ∧ (getCIDR r).err = none)) ∧
    (∀ e, r "sh" ["-c", routeScript] = (out, some e) →
      (getCIDR r).iface = "" ∧ (getCIDR r).cidr = "" ∧ (getCIDR r).err ≠ none ∧
      (getCIDR r).trace = [⟨"sh", ["-c", routeScript]⟩]) ∧
    (r "sh" ["-c", routeScript] = (out, none) → TrimSpace out = "" →
      (getCIDR r).iface = "" ∧ (getCIDR r).cidr = "" ∧
      (getCIDR r).err = some "default interface not found" ∧
      (getCIDR r).trace = [⟨"sh", ["-c", routeScript]⟩]) := by
  refine ⟨?_, ?_, ?_⟩
  · intro h1 ht
    rcases h2 : r "sh" ["-c", addrScript (TrimSpace out)] with ⟨out2, _ | e⟩ <;>
      simp [getCIDR, h1, ht, h2]
  · intro e h1
    simp [getCIDR, h1]
  · intro h1 ht
    simp [getCIDR, h1, ht]

/-- C7 at a host whose routes name `wlan0`, and at one where every tool fails. -/
theorem getCIDR_iface_witness :
    (getCIDR sampleRunner).iface = "wlan0" ∧
    ((getCIDR failingRunner).iface = "" ∧ (getCIDR failingRunner).cidr = "" ∧
      (getCIDR failingRunner).err ≠ none ∧
      (getCIDR failingRunner).trace = [⟨"sh", ["-c", routeScript]⟩]) :=
  ⟨((getCIDR_iface sampleRunner "wlan0\n").1 rfl (by decide)).1,
   (getCIDR_iface failingRunner "partial output").2.1 "exit status 1" rfl⟩

/-- The code at the input on which C8 fails: the route-listing step prints
`eth0` and the address-listing step succeeds with no output; `getCIDR` returns
an empty cidr with a nil error, `main` prints no notice, and the discovery
section of the report reads `CIDR not found`. -/
theorem getCIDR_empty_cidr_nil_error :
    (getCIDR noAddressRunner).cidr = "" ∧
    (getCIDR noAddressRunner).iface = "eth0" ∧
    (getCIDR noAddressRunner).err = none ∧
    notices (getCIDR noAddressRunner) (getWifiInterface noAddressRunner) = "" ∧
    (nmapProbe noAddressRunner (getCIDR noAddressRunner).cidr).text =
      "CIDR not found" := by
  decide

/-! ## Tokens of the wireless device listing -/

/-- What is left after dropping a prefix is empty or starts with a character
that fails the test. -/
theorem dropWhile_nil_or_head (p : Char → Bool) (l : List Char) :
    l.dropWhile p = [] ∨ ∃ c t, l.dropWhile p = c :: t ∧ p c = false := by
  induction l with
  | nil => exact Or.inl rfl
  | cons x xs ih =>
    by_cases hx : p x = true
    · simpa [List.dropWhile_cons, hx] using ih
    · exact Or.inr ⟨x, xs, by simp [List.dropWhile_cons, hx], by simpa using hx⟩

/-- Leading white space is skipped while no field is being read. -/
theorem fieldsAux_skip (ws xs : List Char) (h : ∀ c ∈ ws, isSpace c = true) :
    fieldsAux (ws ++ xs) [] = fieldsAux xs [] := by
  induction ws with
  | nil => rfl
  | cons w ws ih =>
    have hw : isSpace w = true := h w (by simp)
    have hws : ∀ c ∈ ws, isSpace c = true := fun c hc => h c (by simp [hc])
    simp [fieldsAux, hw, ih hws]

/-- A run of non-space characters that ends at white space or at the end of the
input is the first field. -/
theorem fieldsAux_token (tok rest : List Char)
    (htok : ∀ c ∈ tok, isSpace c = false)
    (hrest : rest = [] ∨ ∃ c t, rest = c :: t ∧ isSpace c = true) :
    ∀ cur : List Char, cur ≠ [] ∨ tok ≠ [] →
      ∃ fs, fieldsAux (tok ++ rest) cur = ⟨cur.reverse ++ tok⟩ :: fs := by
  induction tok with
  | nil =>
    intro cur hne
    have hcur : cur ≠ [] := by simpa using hne
    rcases hrest with hr | ⟨c, t, hr, hc⟩
    · subst hr
      exact ⟨[], by simp [fieldsAux, hcur]⟩
    · subst hr
      exact ⟨fieldsAux t [], by simp [fieldsAux, hc, hcur]⟩
  | cons x xs ih =>
    intro cur _
    have hx : isSpace x = false := htok x (by simp)
    have hxs : ∀ c ∈ xs, isSpace c = false := fun c hc => htok c (by simp [hc])
    obtain ⟨fs, hfs⟩ := ih hxs (x :: cur) (Or.inl (by simp))
    exact ⟨fs, by simp [fieldsAux, hx, hfs]⟩

/-- A string with a non-space character splits into leading white space, the
first field and a remainder that is empty or starts with white space. -/
theorem Fields_first (s : String) (h : ∃ c ∈ s.data, isSpace c = false) :
    ∃ ws tok rest fs, s.data = ws ++ tok ++ rest ∧ (∀ c ∈ ws, isSpace c = true) ∧
      tok ≠ [] ∧ (∀ c ∈ tok, isSpace c = false) ∧
      (rest = [] ∨ ∃ c t, rest = c :: t ∧ isSpace c = true) ∧
      Fields s = ⟨tok⟩ :: fs := by
  let notSpace : Char → Bool := fun c => !isSpace c
  have hws : ∀ c ∈ s.data.takeWhile isSpace, isSpace c = true :=
    fun c hc => List.mem_takeWhile_imp hc
  have htok : ∀ c ∈ (s.data.dropWhile isSpace).takeWhile notSpace, isSpace c = false :=
    fun c hc => by simpa [notSpace] using List.mem_takeWhile_imp hc
  have hrest : (s.data.dropWhile isSpace).dropWhile notSpace = [] ∨
      ∃ c t, (s.data.dropWhile isSpace).dropWhile notSpace = c :: t ∧ isSpace c = true := by
    rcases dropWhile_nil_or_head notSpace (s.data.dropWhile isSpace) with h0 | ⟨c, t, h1, h2⟩
    · exact Or.inl h0
    · exact Or.inr ⟨c, t, h1, by simpa [notSpace] using h2⟩
  have hne : (s.data.dropWhile isSpace).takeWhile notSpace ≠ [] := by
    rcases dropWhile_nil_or_head isSpace s.data with h0 | ⟨c, t, h1, h2⟩
    · obtain ⟨c, hc, hcs⟩ := h
      have := (List.dropWhile_eq_nil_iff.mp h0) c hc
      simp [hcs] at this
    · rw [h1]
      simp [List.takeWhile_cons, notSpace, h2]
  have hsplit : s.data = s.data.takeWhile isSpace ++
      (s.data.dropWhile isSpace).takeWhile notSpace ++
      (s.data.dropWhile isSpace).dropWhile notSpace := by
    rw [List.append_assoc, List.takeWhile_append_dropWhile,
      List.takeWhile_append_dropWhile]
  obtain ⟨fs, hfs⟩ := fieldsAux_token _ _ htok hrest [] (Or.inr hne)
  refine ⟨_, _, _, fs, hsplit, hws, hne, htok, hrest, ?_⟩
  unfold Fields
  rw [hsplit, List.append_assoc, fieldsAux_skip _ _ hws, hfs]
  simp

/-- C9: when the wireless-device listing succeeds with output `out`,
`getWifiInterface` fails exactly when `out` has no non-space character, then
with an empty name and the message `no wifi interface found`; otherwise it
returns, with a nil error, the first maximal run of non-space characters of
`out`, which is non-empty.  When the listing itself fails, the name is empty
and the error non-nil. -/
theorem getWifiInterface_spec (r : Runner) (out : String) :
    (r "sh" ["-c", wifiScript] = (out, none) →
      ((getWifiInterface r).err ≠ none ↔ ∀ c ∈ out.data, isSpace c = true) ∧
      ((∀ c ∈ out.data, isSpace c = true) →
        (getWifiInterface r).name = "" ∧
        (getWifiInterface r).err = some "no wifi interface found") ∧
      ((∃ c ∈ out.data, isSpace c = false) →
        ∃ ws tok rest, out.data = ws ++ tok ++ rest ∧
          (∀ c ∈ ws, isSpace c = true) ∧
          tok ≠ [] ∧ (∀ c ∈ tok, isSpace c = false) ∧
          (rest = [] ∨ ∃ c t, rest = c :: t ∧ isSpace c = true) ∧
          (getWifiInterface r).name = ⟨tok⟩ ∧ (getWifiInterface r).err = none)) ∧
    (∀ e, r "sh" ["-c", wifiScript] = (out, some e) →
      (getWifiInterface r).name = "" ∧ (getWifiInterface r).err ≠ none) := by
  constructor
  · intro hr
    have hall : (∀ c ∈ out.data, isSpace c = true) →
        (getWifiInterface r).name = "" ∧
        (getWifiInterface r).err = some "no wifi interface found" := by
      intro hsp
      have hf : Fields out = [] := by
        have := fieldsAux_skip out.data [] hsp
        simpa [Fields, fieldsAux] using this
      simp [getWifiInterface, hr, hf]
    have hsome : (∃ c ∈ out.data, isSpace c = false) →
        ∃ ws tok rest, out.data = ws ++ tok ++ rest ∧
          (∀ c ∈ ws, isSpace c = true) ∧
          tok ≠ [] ∧ (∀ c ∈ tok, isSpace c = false) ∧
          (rest = [] ∨ ∃ c t, rest = c :: t ∧ isSpace c = true) ∧
          (getWifiInterface r).name = ⟨tok⟩ ∧ (getWifiInterface r).err = none := by
      intro hex
      obtain ⟨ws, tok, rest, fs, h1, h2, h3, h4, h5, h6⟩ := Fields_first out hex
      exact ⟨ws, tok, rest, h1, h2, h3, h4, h5, by simp [getWifiInterface, hr, h6]⟩
    refine ⟨⟨?_, fun hsp => by simp [(hall hsp).2]⟩, hall, hsome⟩
    intro herr
    by_contra hcon
    have hex : ∃ c ∈ out.data, isSpace c = false := by
      simpa using hcon
    obtain ⟨_, _, _, _, _, _, _, _, _, hnone⟩ := hsome hex
    exact herr hnone
  · intro e hr
    simp [getWifiInterface, hr]

/-- C9 at a listing that names `wlan0`, and at a listing that fails. -/
theorem getWifiInterface_spec_witness :
    ((getWifiInterface sampleRunner).err ≠ none ↔
      ∀ c ∈ "wlan0\n".data, isSpace c = true) ∧
    ((getWifiInterface failingRunner).name = "" ∧
      (getWifiInterface failingRunner).err ≠ none) :=
  ⟨((getWifiInterface_spec sampleRunner "wlan0\n").1 rfl).1,
   (getWifiInterface_spec failingRunner "partial output").2 "exit status 1" rfl⟩

/-! ## Shell command strings -/

/-- C10 as stated fails: a runner whose route-listing step prints `wlan0` and
one whose route-listing step prints `eth0` make the resolver hand different
command strings to the shell. -/
theorem resolverShellStrings_not_static :
    resolverShellStrings sampleRunner =
      [routeScript, "ip -o -f inet addr show dev wlan0 | awk '\x7bprint $4\x7d'",
        wifiScript] ∧
    resolverShellStrings noAddressRunner =
      [routeScript, "ip -o -f inet addr show dev eth0 | awk '\x7bprint $4\x7d'",
        wifiScript] ∧
    resolverShellStrings sampleRunner ≠ resolverShellStrings noAddressRunner := by
  decide

/-- The shell command strings of the resolver, by the result of the
route-listing step. -/
theorem resolverShellStrings_cases (q : Runner) :
    resolverShellStrings q =
      (match q "sh" ["-c", routeScript] with
        | (out, none) =>
          if TrimSpace out = "" then [routeScript, wifiScript]
          else [routeScript, addrScript (TrimSpace out), wifiScript]
        | (_, some _) => [routeScript, wifiScript]) := by
  have hw : (getWifiInterface q).trace = [⟨"sh", ["-c", wifiScript]⟩] := by
    rcases hq : q "sh" ["-c", wifiScript] with ⟨o, _ | e⟩
    · cases hf : Fields o <;> simp [getWifiInterface, hq, hf]
    · simp [getWifiInterface, hq]
  rcases h1 : q "sh" ["-c", routeScript] with ⟨out, _ | e⟩
  · by_cases ht : TrimSpace out = ""
    · simp [resolverShellStrings, getCIDR, h1, ht, hw, shellStrings]
    · rcases h2 : q "sh" ["-c", addrScript (TrimSpace out)] with ⟨out2, _ | e2⟩ <;>
        simp [resolverShellStrings, getCIDR, h1, ht, h2, hw, shellStrings]
  · simp [resolverShellStrings, getCIDR, h1, hw, shellStrings]

/-- A plain name is not the empty string. -/
theorem ne_empty_of_plainName (t : String) (h : plainName t = true) : t ≠ "" := by
  intro ht
  subst ht
  revert h
  decide

/-- C10, amended: when the route-listing step fails, or succeeds with an output
that trims to the empty string, the resolver hands the shell the two fixed
strings of the route listing and the wireless listing only; when it succeeds
with an output whose trimmed form `t` is one plain interface name, the resolver
hands the shell the fixed route-listing string, the fixed address-listing
template with `t` in the place of the interface name, and the fixed
wireless-listing string; so two runners whose route-listing steps yield the
same plain interface name are handed the same strings.  Nothing is said about
a route-listing output that is not one plain interface name. -/
theorem resolverShellStrings_of_name (r : Runner) (out : String) :
    (∀ e, r "sh" ["-c", routeScript] = (out, some e) →
      resolverShellStrings r = [routeScript, wifiScript]) ∧
    (r "sh" ["-c", routeScript] = (out, none) → TrimSpace out = "" →
      resolverShellStrings r = [routeScript, wifiScript]) ∧
    (r "sh" ["-c", routeScript] = (out, none) → plainName (TrimSpace out) = true →
      resolverShellStrings r =
        [routeScript, addrScript (TrimSpace out), wifiScript] ∧
      ∀ (r₂ : Runner) (out₂ : String),
        r₂ "sh" ["-c", routeScript] = (out₂, none) → TrimSpace out₂ = TrimSpace out →
        resolverShellStrings r₂ = resolverShellStrings r) := by
  refine ⟨?_, ?_, ?_⟩
  · intro e h1
    rw [resolverShellStrings_cases r, h1]
  · intro h1 ht
    rw [resolverShellStrings_cases r, h1]
    simp [ht]
  · intro h1 hp
    have hne : TrimSpace out ≠ "" := ne_empty_of_plainName _ hp
    have hr : resolverShellStrings r =
        [routeScript, addrScript (TrimSpace out), wifiScript] := by
      rw [resolverShellStrings_cases r, h1]
      simp [hne]
    refine ⟨hr, ?_⟩
    intro r₂ out₂ h2 heq
    rw [hr, resolverShellStrings_cases r₂, h2]
    simp [heq, hne]

/-- C10, amended, at a runner whose route listing prints `wlan0`, and at a
second runner that prints the same name and differs elsewhere. -/
theorem resolverShellStrings_of_name_witness :
    resolverShellStrings sampleRunner =
      [routeScript, addrScript (TrimSpace "wlan0\n"), wifiScript] ∧
    resolverShellStrings echoRunner = resolverShellStrings sampleRunner ∧
    resolverShellStrings failingRunner = [routeScript, wifiScript] :=
  ⟨((resolverShellStrings_of_name sampleRunner "wlan0\n").2.2 (by decide) (by decide)).1,
   ((resolverShellStrings_of_name sampleRunner "wlan0\n").2.2 (by decide) (by decide)).2
      echoRunner "wlan0\n" (by decide) rfl,
   (resolverShellStrings_of_name failingRunner "partial output").1 "exit status 1"
      (by decide)⟩

end NetScope
